import Mathlib

/-!
Verification of the `system76-firmware` core library (`src/lib.rs`).

The Rust source is shallowly embedded: pure functions become Lean
functions; the effectful operations (`schedule`, `unschedule`,
`download`, `cached_block`) become explicit state-passing functions over
an environment of external-operation outcomes, producing a result, the
new world state, and a trace of the external effects they performed, in
order.  Machine integers (`u64`) are modelled as `Nat`; the only
arithmetic on them in the source is comparison and a guarded
subtraction, which never wraps, so no modular reduction is needed.
-/

namespace System76Firmware

/-! ## The `timestamp` module (src/lib.rs, `mod timestamp`) -/

namespace timestamp

/-- Embedding of `timestamp::exceeded` (src/lib.rs lines 294-296):
`current == 0 || last > current || current - last > limit`.
`u64` is modelled as `Nat`; the subtraction `current - last` is only
reached when `last <= current`, where Rust and `Nat` subtraction agree. -/
def exceeded (last current limit : Nat) : Bool :=
  (current == 0) || (decide (last > current)) || (decide (current - last > limit))

/-- Rust checked subtraction on `u64`: `none` models the underflow panic
of debug-mode `current - last` when `last > current`. -/
def checkedSub (a b : Nat) : Option Nat :=
  if b ≤ a then some (a - b) else none

/-- Embedding of `timestamp::exceeded` with the short-circuit evaluation
order of Rust `||` made explicit: the subtraction is modelled with
`checkedSub` and is only evaluated when the first two disjuncts are
false.  A result of `none` would mean the Rust expression can underflow. -/
def exceededChecked (last current limit : Nat) : Option Bool :=
  if current == 0 then some true
  else if decide (last > current) then some true
  else (checkedSub current last).map (fun age => decide (age > limit))

end timestamp

/-- Embedding of the `SECONDS_IN_DAY` constant (src/lib.rs line 36). -/
def SECONDS_IN_DAY : Nat := 60 * 60 * 24

/-! ## Model allow-list (src/lib.rs lines 38-87) -/

/-- Embedding of the `MODEL_WHITELIST` constant (src/lib.rs lines 38-80). -/
def MODEL_WHITELIST : List String := [
  "addw1",
  "bonw11",
  "bonw12",
  "bonw13",
  "darp5",
  "galp2",
  "galp3",
  "galp3-b",
  "galp3-c",
  "gaze10",
  "gaze11",
  "gaze12",
  "gaze13",
  "gaze14",
  "kudu2",
  "kudu3",
  "kudu4",
  "kudu5",
  "lemu6",
  "lemu7",
  "lemu8",
  "meer4",
  "orxp1",
  "oryp2",
  "oryp2-ess",
  "oryp3",
  "oryp3-b",
  "oryp3-ess",
  "oryp4",
  "oryp4-b",
  "oryp5",
  "serw9",
  "serw10",
  "serw11",
  "serw11-b",
  "thelio-b1",
  "thelio-major-b1",
  "thelio-major-b1.1",
  "thelio-major-b2",
  "thelio-major-r1",
  "thelio-r1"
]

/-- Embedding of `model_is_whitelisted` (src/lib.rs lines 82-87):
`MODEL_WHITELIST.into_iter().find(|w| model == **w).is_some()`. -/
def model_is_whitelisted (model : String) : Bool :=
  (MODEL_WHITELIST.find? (fun w => model == w)).isSome

/-! ## The `util::sha256` helper

Modelled from the spec: the `util` module is not under src/; §4.1 of the
spec defines it as "`ecProjectHash = sha256(ecProject bytes)` rendered
as lowercase hex", so the full SHA-256 function (FIPS 180-4) is
implemented here over byte lists, with 32-bit words as `Nat` reduced
modulo `2^32`. -/

namespace util

/-- Modulus of a 32-bit word. -/
def M32 : Nat := 4294967296

/-- Addition modulo `2^32`. -/
def add32 (a b : Nat) : Nat := (a + b) % M32

/-- Rotation of a 32-bit word to the right by `n` bits. -/
def rotr (n x : Nat) : Nat := ((x >>> n) ||| (x <<< (32 - n))) % M32

/-- Logical right shift. -/
def shr (n x : Nat) : Nat := x >>> n

/-- Bitwise complement of a 32-bit word. -/
def not32 (x : Nat) : Nat := Nat.xor x 4294967295

/-- The SHA-256 `Ch` function. -/
def ch (x y z : Nat) : Nat := Nat.xor (Nat.land x y) (Nat.land (not32 x) z)

/-- The SHA-256 `Maj` function. -/
def maj (x y z : Nat) : Nat :=
  Nat.xor (Nat.xor (Nat.land x y) (Nat.land x z)) (Nat.land y z)

/-- The SHA-256 `Σ0` function. -/
def bigSigma0 (x : Nat) : Nat := Nat.xor (Nat.xor (rotr 2 x) (rotr 13 x)) (rotr 22 x)

/-- The SHA-256 `Σ1` function. -/
def bigSigma1 (x : Nat) : Nat := Nat.xor (Nat.xor (rotr 6 x) (rotr 11 x)) (rotr 25 x)

/-- The SHA-256 `σ0` function. -/
def smallSigma0 (x : Nat) : Nat := Nat.xor (Nat.xor (rotr 7 x) (rotr 18 x)) (shr 3 x)

/-- The SHA-256 `σ1` function. -/
def smallSigma1 (x : Nat) : Nat := Nat.xor (Nat.xor (rotr 17 x) (rotr 19 x)) (shr 10 x)

/-- The SHA-256 round constants. -/
def K : List Nat := [
  1116352408, 1899447441, 3049323471, 3921009573, 961987163,
  1508970993, 2453635748, 2870763221, 3624381080, 310598401,
  607225278, 1426881987, 1925078388, 2162078206, 2614888103,
  3248222580, 3835390401, 4022224774, 264347078, 604807628,
  770255983, 1249150122, 1555081692, 1996064986, 2554220882,
  2821834349, 2952996808, 3210313671, 3336571891, 3584528711,
  113926993, 338241895, 666307205, 773529912, 1294757372,
  1396182291, 1695183700, 1986661051, 2177026350, 2456956037,
  2730485921, 2820302411, 3259730800, 3345764771, 3516065817,
  3600352804, 4094571909, 275423344, 430227734, 506948616,
  659060556, 883997877, 958139571, 1322822218, 1537002063,
  1747873779, 1955562222, 2024104815, 2227730452, 2361852424,
  2428436474, 2756734187, 3204031479, 3329325298]

/-- The eight 32-bit words of the SHA-256 internal state. -/
structure Hash8 where
  a : Nat
  b : Nat
  c : Nat
  d : Nat
  e : Nat
  f : Nat
  g : Nat
  h : Nat

/-- The SHA-256 initial hash value. -/
def initH : Hash8 :=
  ⟨1779033703, 3144134277, 1013904242, 2773480762,
   1359893119, 2600822924, 528734635, 1541459225⟩

/-- Big-endian grouping of bytes into 32-bit words. -/
def bytesToWords : List Nat → List Nat
  | b0 :: b1 :: b2 :: b3 :: rest =>
    (((b0 * 256 + b1) * 256 + b2) * 256 + b3) :: bytesToWords rest
  | _ => []

/-- Extension of the 16-word message schedule by `n` further words. -/
def extendLoop : Nat → List Nat → List Nat
  | 0, acc => acc
  | n + 1, acc =>
    let len := acc.length
    let w := add32
      (add32 (smallSigma1 (acc.getD (len - 2) 0)) (acc.getD (len - 7) 0))
      (add32 (smallSigma0 (acc.getD (len - 15) 0)) (acc.getD (len - 16) 0))
    extendLoop n (acc ++ [w])

/-- One SHA-256 compression round; `kw` is the round constant plus the
schedule word. -/
def step (s : Hash8) (kw : Nat) : Hash8 :=
  let t1 := add32 s.h (add32 (bigSigma1 s.e) (add32 (ch s.e s.f s.g) kw))
  let t2 := add32 (bigSigma0 s.a) (maj s.a s.b s.c)
  ⟨add32 t1 t2, s.a, s.b, s.c, add32 s.d t1, s.e, s.f, s.g⟩

/-- Compression of one 64-byte block into the running state. -/
def processBlock (h : Hash8) (block : List Nat) : Hash8 :=
  let ws := extendLoop 48 (bytesToWords block)
  let s := (ws.zip K).foldl (fun s p => step s (add32 p.1 p.2)) h
  ⟨add32 h.a s.a, add32 h.b s.b, add32 h.c s.c, add32 h.d s.d,
   add32 h.e s.e, add32 h.f s.f, add32 h.g s.g, add32 h.h s.h⟩

/-- SHA-256 padding: a `0x80` byte, zeros to 56 mod 64, then the bit
length as eight big-endian bytes. -/
def pad (msg : List Nat) : List Nat :=
  let len := msg.length
  let bitLen := 8 * len
  let z := (120 - ((len + 1) % 64)) % 64
  msg ++ [0x80] ++ List.replicate z 0 ++
    ((List.range 8).map (fun i => (bitLen >>> (8 * (7 - i))) % 256))

/-- Fuel-indexed splitting of a byte list into 64-byte blocks. -/
def blocksOfAux : Nat → List Nat → List (List Nat)
  | 0, _ => []
  | fuel + 1, l => if l = [] then [] else l.take 64 :: blocksOfAux fuel (l.drop 64)

/-- Splitting of a byte list into 64-byte blocks. -/
def blocksOf (l : List Nat) : List (List Nat) := blocksOfAux l.length l

/-- Big-endian bytes of a 32-bit word. -/
def wordBytes (w : Nat) : List Nat :=
  [(w >>> 24) % 256, (w >>> 16) % 256, (w >>> 8) % 256, w % 256]

/-- The 32-byte SHA-256 digest of a byte list. -/
def sha256bytes (msg : List Nat) : List Nat :=
  let s := (blocksOf (pad msg)).foldl processBlock initH
  wordBytes s.a ++ wordBytes s.b ++ wordBytes s.c ++ wordBytes s.d ++
    wordBytes s.e ++ wordBytes s.f ++ wordBytes s.g ++ wordBytes s.h

/-- Lowercase hexadecimal digit. -/
def hexDigit (n : Nat) : Char :=
  if n < 10 then Char.ofNat (48 + n) else Char.ofNat (87 + n)

/-- Two lowercase hexadecimal digits of a byte. -/
def byteToHex (b : Nat) : List Char := [hexDigit (b / 16), hexDigit (b % 16)]

/-- Lowercase hexadecimal rendering of a byte list. -/
def bytesToHex (bs : List Nat) : String := String.mk ((bs.map byteToHex).flatten)

/-- Modelled from the spec: `util::sha256` (the `util` module is not
under src/) — the SHA-256 digest of the input bytes rendered as
lowercase hex, per §4.1 of the spec. -/
def sha256 (msg : List Nat) : String := bytesToHex (sha256bytes msg)

end util

/-- UTF-8 encoding of one character, as Rust's `str::as_bytes` sees it. -/
def charUtf8Bytes (c : Char) : List Nat :=
  let n := c.toNat
  if n < 0x80 then [n]
  else if n < 0x800 then [0xc0 + n / 64, 0x80 + n % 64]
  else if n < 0x10000 then [0xe0 + n / 4096, 0x80 + (n / 64) % 64, 0x80 + n % 64]
  else [0xf0 + n / 262144, 0x80 + (n / 4096) % 64, 0x80 + (n / 64) % 64, 0x80 + n % 64]

/-- The UTF-8 bytes of a string, modelling Rust's `str::as_bytes`. -/
def strBytes (s : String) : List Nat := (s.data.map charUtf8Bytes).flatten

/-! ## `firmware_id` (src/lib.rs lines 94-99) -/

/-- Embedding of `firmware_id` (src/lib.rs lines 94-99).  `biosResult`
models the outcome of `bios::bios()` — a `(model, version)` pair or an
error — and `ecProject` models the project string returned by
`ec::ec_or_none(true)`, which (modelled from the spec, §6: `tolerant =
true` "never fails, substituting empty strings") is an empty string when
no embedded controller is present.  The body mirrors the source: the
`?` on `bios::bios()` propagates its error, then
`format!("{}_{}", bios_model, util::sha256(ec_project.as_bytes()))`. -/
def firmware_id (biosResult : Except String (String × String)) (ecProject : String) :
    Except String String :=
  match biosResult with
  | Except.error e => Except.error e
  | Except.ok x => Except.ok (x.1 ++ "_" ++ util.sha256 (strBytes ecProject))

/-! ## Effects, world state and environments

The effectful operations are embedded as functions from an environment
of external-operation outcomes (one field per fallible external call)
and a world state to a result, a new world state, and the ordered trace
of external effects performed. -/

/-- A `buildchain::Block`, the pointer ("tail") record; only its
`digest` field is used by this library. -/
structure Block where
  digest : String
deriving DecidableEq

/-- Content of the pointer-cache file: a serialized record, garbage
bytes, or a file truncated by an interrupted write. -/
inductive FileContent
  | garbage
  | truncated
  | record (b : Block)
deriving DecidableEq

/-- External effects, in the order the operations perform them. -/
inductive Eff
  | whitelistCheck
  | statFile
  | openFile
  | deserializeFile
  | refresh
  | createFile
  | writeFile
  | downloaderNew
  | cacheNew
  | fetchObject (digest : String)
  | extractChangelog
  | unsetFlag
  | removeBootDir
  | createTempDir
  | extractPayload (file : String)
  | renameDir
  | removeTempDir
  | setFlag
deriving DecidableEq

/-- Outcomes of the external calls made by `cached_block`. -/
structure CacheEnv where
  modifiedResult : Option Nat
  now : Nat
  openOk : Bool
  refreshResult : Except String Block
  createOk : Bool
  serializeOk : Bool

/-! ## `cached_block` (src/lib.rs lines 161-194) -/

/-- Embedding of the `read_cache` closure inside `cached_block`
(src/lib.rs lines 168-180): if the timestamp is exceeded the cache is
ignored (`Ok none`); otherwise the file is opened and deserialized, each
failure propagating as an error. -/
def read_cache (env : CacheEnv) (file : Option FileContent) (stale_after modified : Nat) :
    Except String (Option Block) × List Eff :=
  if timestamp.exceeded modified env.now stale_after then (Except.ok none, [])
  else
    match env.openOk, file with
    | false, _ => (Except.error "failed to open cache file", [Eff.openFile])
    | true, none => (Except.error "failed to open cache file", [Eff.openFile])
    | true, some (FileContent.record b) =>
      (Except.ok (some b), [Eff.openFile, Eff.deserializeFile])
    | true, some _ =>
      (Except.error "failed to deserialize cache file", [Eff.openFile, Eff.deserializeFile])

/-- Embedding of the `update_cache` closure inside `cached_block`
(src/lib.rs lines 183-188): call `func()`, then create the cache file
and serialize the block into it, propagating each failure.  A create
failure leaves the file as it was; a write failure after a successful
create leaves it truncated. -/
def update_cache (env : CacheEnv) (file : Option FileContent) :
    Except String Block × Option FileContent × List Eff :=
  match env.refreshResult with
  | Except.error e => (Except.error e, file, [Eff.refresh])
  | Except.ok b =>
    if env.createOk = false then
      (Except.error "failed to create cache file", file, [Eff.refresh, Eff.createFile])
    else if env.serializeOk = false then
      (Except.error "failed to serialize block", some FileContent.truncated,
        [Eff.refresh, Eff.createFile, Eff.writeFile])
    else (Except.ok b, some (FileContent.record b), [Eff.refresh, Eff.createFile, Eff.writeFile])

/-- Embedding of `cached_block` (src/lib.rs lines 161-194): stat the
file; on success run `read_cache` and fall back to `update_cache` only
when the entry was stale (`Ok(None)`); on stat failure run
`update_cache` directly.  Returns the result, the new cache-file
content, and the effect trace. -/
def cached_block (env : CacheEnv) (file : Option FileContent) (stale_after : Nat) :
    Except String Block × Option FileContent × List Eff :=
  match env.modifiedResult with
  | some modified =>
    match read_cache env file stale_after modified with
    | (Except.error e, tr) => (Except.error e, file, Eff.statFile :: tr)
    | (Except.ok none, tr) =>
      let u := update_cache env file
      (u.1, u.2.1, Eff.statFile :: tr ++ u.2.2)
    | (Except.ok (some b), tr) => (Except.ok b, file, Eff.statFile :: tr)
  | none =>
    let u := update_cache env file
    (u.1, u.2.1, Eff.statFile :: u.2.2)

/-! ## `schedule` and `unschedule` (src/lib.rs lines 218-271) -/

/-- Content of a staged directory: freshly created, holding only the
updater payload, or holding both payloads (a complete artifact). -/
inductive DirContent
  | empty
  | updaterOnly
  | complete
deriving DecidableEq

/-- World state touched by `schedule` and `unschedule`: the one-shot
boot flag, the boot-visible directory `/boot/efi/system76-firmware-update`
(`none` when absent), and the temporary staging directory. -/
structure World where
  flag : Bool
  bootDir : Option DirContent
  tmpDir : Option DirContent
deriving DecidableEq

/-- Outcomes of the external calls made by `schedule` and `unschedule`.
`unsetOk` may depend on the current flag state, so that an assumption
"clearing an already-clear flag succeeds" is expressible. -/
structure SchedEnv where
  biosResult : Except String (String × String)
  ecProject : String
  efiExists : Bool
  unsetOk : Bool → Bool
  removeOk : Bool
  tempdirOk : Bool
  extractUpdaterOk : Bool
  extractFirmwareOk : Bool
  renameOk : Bool
  setOk : Bool

/-- Embedding of `remove_dir` (src/lib.rs lines 101-113): a no-op when
the path does not exist, otherwise `fs::remove_dir_all` whose failure is
reported.  Returns the result, the directory state afterwards, and the
trace (`eff` names the directory being removed). -/
def remove_dir (removeOk : Bool) (eff : Eff) (dir : Option DirContent) :
    Except String Unit × Option DirContent × List Eff :=
  match dir with
  | none => (Except.ok (), none, [])
  | some c =>
    if removeOk then (Except.ok (), none, [eff])
    else (Except.error "failed to remove directory", some c, [eff])

/-- Embedding of `schedule` (src/lib.rs lines 218-259), step by step:
`firmware_id()?`; the `/sys/firmware/efi` existence check;
`boot::unset_next_boot()?`; `remove_dir(updater_dir)?`;
`TempDir::new_in`; the two `extract` calls (an early return drops the
`TempDir` guard, which deletes the staging directory); `fs::rename`,
whose failure triggers a best-effort `remove_dir` of the staging
directory with its error ignored; and finally `boot::set_next_boot()?`. -/
def schedule (env : SchedEnv) (w : World) : Except String Unit × World × List Eff :=
  match firmware_id env.biosResult env.ecProject with
  | Except.error e => (Except.error e, w, [])
  | Except.ok fid =>
    if env.efiExists = false then (Except.error "must be run using UEFI boot", w, [])
    else if env.unsetOk w.flag = false then
      (Except.error "failed to unset next boot", w, [Eff.unsetFlag])
    else
      let w1 : World := ⟨false, w.bootDir, w.tmpDir⟩
      match remove_dir env.removeOk Eff.removeBootDir w1.bootDir with
      | (Except.error e, bd, tr) => (Except.error e, ⟨false, bd, w.tmpDir⟩, Eff.unsetFlag :: tr)
      | (Except.ok _, bd, tr) =>
        let tr2 := Eff.unsetFlag :: tr
        if env.tempdirOk = false then
          (Except.error "failed to create temporary directory", ⟨false, bd, w.tmpDir⟩,
            tr2 ++ [Eff.createTempDir])
        else
          let tr3 := tr2 ++ [Eff.createTempDir]
          if env.extractUpdaterOk = false then
            (Except.error "failed to extract updater", ⟨false, bd, none⟩,
              tr3 ++ [Eff.extractPayload "system76-firmware-update.tar.xz"])
          else
            let tr4 := tr3 ++ [Eff.extractPayload "system76-firmware-update.tar.xz"]
            if env.extractFirmwareOk = false then
              (Except.error "failed to extract firmware", ⟨false, bd, none⟩,
                tr4 ++ [Eff.extractPayload (fid ++ ".tar.xz")])
            else
              let tr5 := tr4 ++ [Eff.extractPayload (fid ++ ".tar.xz")]
              if env.renameOk = false then
                let cleanup := remove_dir env.removeOk Eff.removeTempDir (some DirContent.complete)
                (Except.error "failed to move temporary directory to boot path",
                  ⟨false, bd, cleanup.2.1⟩,
                  tr5 ++ [Eff.renameDir] ++ cleanup.2.2)
              else
                let tr6 := tr5 ++ [Eff.renameDir]
                if env.setOk = false then
                  (Except.error "failed to set next boot",
                    ⟨false, some DirContent.complete, none⟩, tr6 ++ [Eff.setFlag])
                else
                  (Except.ok (), ⟨true, some DirContent.complete, none⟩, tr6 ++ [Eff.setFlag])

/-- Embedding of `unschedule` (src/lib.rs lines 261-271):
`boot::unset_next_boot()?` then `remove_dir(updater_dir)?`. -/
def unschedule (env : SchedEnv) (w : World) : Except String Unit × World × List Eff :=
  if env.unsetOk w.flag = false then
    (Except.error "failed to unset next boot", w, [Eff.unsetFlag])
  else
    match remove_dir env.removeOk Eff.removeBootDir w.bootDir with
    | (Except.error e, bd, tr) => (Except.error e, ⟨false, bd, w.tmpDir⟩, Eff.unsetFlag :: tr)
    | (Except.ok _, bd, tr) => (Except.ok (), ⟨false, bd, w.tmpDir⟩, Eff.unsetFlag :: tr)

/-- The disjunction "some step of `schedule` before or including the
rename fails", over the outcome environment. -/
def preRenameFail (env : SchedEnv) (w : World) : Prop :=
  (∃ e, env.biosResult = Except.error e) ∨
  env.efiExists = false ∨
  env.unsetOk w.flag = false ∨
  (w.bootDir ≠ none ∧ env.removeOk = false) ∨
  env.tempdirOk = false ∨
  env.extractUpdaterOk = false ∨
  env.extractFirmwareOk = false ∨
  env.renameOk = false

/-! ## `download` (src/lib.rs lines 115-154) -/

/-- Outcomes of the external calls made by `download`: the
`bios`/`ec` reads feeding `firmware_id`, `Downloader::new`, the
`cached_block` environment for the tail record and the current content
of the tail cache file, `download::Cache::new`, `cache.object` keyed by
digest, `serde_json::from_slice::<Manifest>` on the fetched bytes (the
manifest is its `files` name-to-digest mapping), and
`util::extract_file` for the changelog. -/
structure DlEnv where
  biosResult : Except String (String × String)
  ecProject : String
  downloaderNewOk : Bool
  cacheEnv : CacheEnv
  cacheFile : Option FileContent
  cacheNewOk : Bool
  objectResult : String → Except String (List Nat)
  parseManifest : List Nat → Except String (List (String × String))
  extractChangelogResult : Except String String

/-- Embedding of `download` (src/lib.rs lines 115-154): `firmware_id()?`,
`Downloader::new(...)?`, the tail via `cached_block(path, SECONDS_IN_DAY,
|| dl.tail())?`, `Cache::new(...)?`, fetch and parse of the manifest,
lookup and fetch of `system76-firmware-update.tar.xz`, lookup and fetch
of `<firmware_id>.tar.xz`, and extraction of `./changelog.json`. -/
def download (env : DlEnv) : Except String (String × String) × List Eff :=
  match firmware_id env.biosResult env.ecProject with
  | Except.error e => (Except.error e, [])
  | Except.ok fid =>
    if env.downloaderNewOk = false then
      (Except.error "failed to create downloader", [Eff.downloaderNew])
    else
      match cached_block env.cacheEnv env.cacheFile SECONDS_IN_DAY with
      | (Except.error e, _, trc) => (Except.error e, Eff.downloaderNew :: trc)
      | (Except.ok tail, _, trc) =>
        let tr1 := Eff.downloaderNew :: trc
        if env.cacheNewOk = false then (Except.error "failed to create cache", tr1 ++ [Eff.cacheNew])
        else
          let tr2 := tr1 ++ [Eff.cacheNew]
          match env.objectResult tail.digest with
          | Except.error e => (Except.error e, tr2 ++ [Eff.fetchObject tail.digest])
          | Except.ok manifestJson =>
            let tr3 := tr2 ++ [Eff.fetchObject tail.digest]
            match env.parseManifest manifestJson with
            | Except.error e => (Except.error e, tr3)
            | Except.ok files =>
              match files.lookup "system76-firmware-update.tar.xz" with
              | none => (Except.error "system76-firmware-update.tar.xz not found", tr3)
              | some d1 =>
                match env.objectResult d1 with
                | Except.error e => (Except.error e, tr3 ++ [Eff.fetchObject d1])
                | Except.ok _ =>
                  let tr4 := tr3 ++ [Eff.fetchObject d1]
                  match files.lookup (fid ++ ".tar.xz") with
                  | none => (Except.error (fid ++ ".tar.xz not found"), tr4)
                  | some d2 =>
                    match env.objectResult d2 with
                    | Except.error e => (Except.error e, tr4 ++ [Eff.fetchObject d2])
                    | Except.ok _ =>
                      let tr5 := tr4 ++ [Eff.fetchObject d2]
                      match env.extractChangelogResult with
                      | Except.error e => (Except.error e, tr5 ++ [Eff.extractChangelog])
                      | Except.ok changelog =>
                        (Except.ok (tail.digest, changelog), tr5 ++ [Eff.extractChangelog])

end System76Firmware

namespace System76Firmware

/-- A fully successful `download` environment: bios model `darp5`, no
embedded controller, a fresh readable tail cache, and a manifest naming
both payloads.  Used to exhibit a complete download run. -/
def happyDlEnv : DlEnv :=
  ⟨Except.ok ("darp5", "1.07.05"), "", true,
   ⟨some 1000, 1200, true, Except.ok ⟨"taildigest"⟩, true, true⟩,
   some (FileContent.record ⟨"taildigest"⟩), true,
   fun _ => Except.ok [],
   fun _ => Except.ok [("system76-firmware-update.tar.xz", "updater-digest"),
     ("darp5_e3b0c44298fc1c149afbf4c8996fb92427ae41e4649b934ca495991b7852b855.tar.xz",
       "firmware-digest")],
   Except.ok "changelog-json"⟩

end System76Firmware

namespace System76Firmware

/-! ## Claim theorems -/

/-- Claim C2: `timestamp::exceeded(last, current, limit)` is true iff
`current == 0`, or `last > current`, or `current - last > limit`; an age
exactly equal to the limit is not stale, age `limit + 1` is stale, and
`current == 0` or `last > current` force staleness regardless of age. -/
theorem exceeded_spec (last current limit : Nat) :
    (timestamp.exceeded last current limit = true ↔
      (current = 0 ∨ last > current ∨ current - last > limit)) ∧
    (current ≠ 0 → last ≤ current → current - last = limit →
      timestamp.exceeded last current limit = false) ∧
    (current ≠ 0 → last ≤ current → current - last = limit + 1 →
      timestamp.exceeded last current limit = true) ∧
    (current = 0 → timestamp.exceeded last current limit = true) ∧
    (last > current → timestamp.exceeded last current limit = true) := by
  refine ⟨?_, ?_, ?_, ?_, ?_⟩
  · simp [timestamp.exceeded, or_assoc]
  · intro h0 hle hage
    simp [timestamp.exceeded, h0, Nat.not_lt.mpr hle, hage]
  · intro h0 hle hage
    simp [timestamp.exceeded, hage]
  · intro h0
    simp [timestamp.exceeded, h0]
  · intro hlt
    simp [timestamp.exceeded, hlt]

/-- Witness for `exceeded_spec` at `last = 5`, `current = 12`,
`limit = 7`: the age `7` equals the limit, so the entry is not stale. -/
theorem exceeded_spec_witness :
    timestamp.exceeded 5 12 7 = false :=
  (exceeded_spec 5 12 7).2.1 (by decide) (by decide) (by decide)

/-- Claim C10: the subtraction in `timestamp::exceeded` is evaluated
only when `last <= current`; with checked subtraction modelling the
possible underflow, the predicate is total (`exceededChecked` never
returns `none`) and agrees with `exceeded` on every input, including
those where the modification time lies in the future. -/
theorem exceeded_no_underflow (last current limit : Nat) :
    timestamp.exceededChecked last current limit =
      some (timestamp.exceeded last current limit) := by
  unfold timestamp.exceededChecked timestamp.checkedSub timestamp.exceeded
  by_cases h0 : current = 0
  · simp [h0]
  · by_cases hlt : last > current
    · simp [h0, hlt]
    · have hle : last ≤ current := Nat.not_lt.mp hlt
      simp [h0, hlt, hle]

/-- Claim C7: `model_is_whitelisted m` is true iff `m` is exactly one of
the strings of the fixed `MODEL_WHITELIST` list (an exact, case-sensitive
full-string match); it is a pure total `Bool`-valued function, so it has
no failure mode and performs no I/O. -/
theorem model_is_whitelisted_iff_mem (m : String) :
    model_is_whitelisted m = true ↔ m ∈ MODEL_WHITELIST := by
  unfold model_is_whitelisted
  rw [Option.isSome_iff_exists]
  constructor
  · rintro ⟨w, hw⟩
    have hmem := List.mem_of_find?_eq_some hw
    have hpred := List.find?_some hw
    have : m = w := by simpa using hpred
    simpa [this] using hmem
  · intro hmem
    have h := List.find?_isSome.mpr ⟨m, hmem, beq_self_eq_true m⟩
    rcases Option.isSome_iff_exists.mp h with ⟨w, hw⟩
    exact ⟨w, hw⟩

/-- Claim C5: `firmware_id` succeeds exactly when board-model retrieval
succeeds, in which case it returns `model ++ "_" ++ h` where `h` is the
lowercase-hex SHA-256 digest of the embedded-controller project string's
bytes; a bios error is propagated unchanged; and with no embedded
controller (empty project string) the digest component is the well-known
SHA-256 digest of the empty input.  Determinism is inherent: the
embedding is a pure function of `(biosResult, ecProject)`. -/
theorem firmware_id_spec (biosResult : Except String (String × String)) (ecProject : String) :
    ((firmware_id biosResult ecProject).isOk = biosResult.isOk) ∧
    (∀ m v, biosResult = Except.ok (m, v) →
      firmware_id biosResult ecProject =
        Except.ok (m ++ "_" ++ util.sha256 (strBytes ecProject))) ∧
    (∀ e, biosResult = Except.error e → firmware_id biosResult ecProject = Except.error e) ∧
    (∀ m v, firmware_id (Except.ok (m, v)) "" =
      Except.ok (m ++ "_" ++ "e3b0c44298fc1c149afbf4c8996fb92427ae41e4649b934ca495991b7852b855")) := by
  have hdig : util.sha256 (strBytes "") =
      "e3b0c44298fc1c149afbf4c8996fb92427ae41e4649b934ca495991b7852b855" := by decide
  refine ⟨?_, ?_, ?_, ?_⟩
  · cases biosResult <;> simp [firmware_id, Except.isOk, Except.toBool]
  · intro m v hb
    simp [firmware_id, hb]
  · intro e hb
    simp [firmware_id, hb]
  · intro m v
    simp [firmware_id, hdig]

/-- Witness for `firmware_id_spec`: with bios model `darp5` and embedded
controller project `L140CU`, the identity is the model, an underscore,
and the digest of the project string. -/
theorem firmware_id_spec_witness :
    firmware_id (Except.ok ("darp5", "1.07.05")) "L140CU" =
      Except.ok ("darp5" ++ "_" ++ util.sha256 (strBytes "L140CU")) :=
  (firmware_id_spec (Except.ok ("darp5", "1.07.05")) "L140CU").2.1 "darp5" "1.07.05" rfl

end System76Firmware

namespace System76Firmware

/-- Claim C3: when the cache file's modification time can be read and
the entry is not stale, a failure to open the file or to deserialize its
content (garbage, truncated, or missing content) is returned as an error
and the refresh function is never invoked — corrupt cache is never
silently treated as a cache miss. -/
theorem cached_block_corrupt_is_error (env : CacheEnv) (file : Option FileContent)
    (stale_after m : Nat)
    (hm : env.modifiedResult = some m)
    (hfresh : timestamp.exceeded m env.now stale_after = false)
    (hbad : env.openOk = false ∨ ∀ b, file ≠ some (FileContent.record b)) :
    (∃ e, (cached_block env file stale_after).1 = Except.error e) ∧
    Eff.refresh ∉ (cached_block env file stale_after).2.2 := by
  unfold cached_block read_cache
  rw [hm]
  rcases hbad with h | h
  · simp [hfresh, h]
  · cases hf : file with
    | none =>
      cases ho : env.openOk <;> simp [hfresh, ho]
    | some c =>
      cases c with
      | record b => exact absurd hf (h b)
      | garbage => cases ho : env.openOk <;> simp [hfresh, ho]
      | truncated => cases ho : env.openOk <;> simp [hfresh, ho]

/-- Witness for `cached_block_corrupt_is_error`: a readable, non-stale
cache file holding garbage bytes makes `cached_block` fail without
calling the refresh function. -/
theorem cached_block_corrupt_is_error_witness :
    (∃ e, (cached_block ⟨some 100, 130, true, Except.ok ⟨"d"⟩, true, true⟩
      (some FileContent.garbage) 86400).1 = Except.error e) ∧
    Eff.refresh ∉ (cached_block ⟨some 100, 130, true, Except.ok ⟨"d"⟩, true, true⟩
      (some FileContent.garbage) 86400).2.2 :=
  cached_block_corrupt_is_error ⟨some 100, 130, true, Except.ok ⟨"d"⟩, true, true⟩
    (some FileContent.garbage) 86400 100 rfl (by decide)
    (Or.inr (fun b h => by cases h))

/-- Behaviour of the `update_cache` closure: it calls the refresh
function exactly once; a refresh error is propagated with the file
untouched; on refresh success with successful create and write the
record is stored and returned. -/
theorem update_cache_spec (env : CacheEnv) (file : Option FileContent) :
    (update_cache env file).2.2.count Eff.refresh = 1 ∧
    (∀ e, env.refreshResult = Except.error e →
      (update_cache env file).1 = Except.error e ∧ (update_cache env file).2.1 = file) ∧
    (∀ b, env.refreshResult = Except.ok b → env.createOk = true → env.serializeOk = true →
      (update_cache env file).1 = Except.ok b ∧
      (update_cache env file).2.1 = some (FileContent.record b)) := by
  cases hr : env.refreshResult with
  | error e =>
    unfold update_cache
    simp [hr]
  | ok b =>
    unfold update_cache
    cases hc : env.createOk <;> cases hs : env.serializeOk <;> simp [hr, hc, hs]

/-- Under a failed stat or a stale timestamp, `cached_block` is the
`update_cache` path prefixed by the stat effect. -/
theorem cached_block_stale_eq (env : CacheEnv) (file : Option FileContent)
    (stale_after : Nat)
    (hstale : env.modifiedResult = none ∨
      ∃ m, env.modifiedResult = some m ∧ timestamp.exceeded m env.now stale_after = true) :
    cached_block env file stale_after =
      ((update_cache env file).1, (update_cache env file).2.1,
        Eff.statFile :: (update_cache env file).2.2) := by
  rcases hstale with hm | ⟨m, hm, hst⟩
  · simp [cached_block, hm]
  · simp [cached_block, read_cache, hm, hst]

/-- Claim C6: when the cache file's timestamp cannot be read or the
entry is stale, the refresh function is invoked exactly once; on refresh
success (and successful create and write) the returned record is
serialized to the cache file and returned to the caller; on refresh
failure the error is returned and the cache file is not written. -/
theorem cached_block_stale_refreshes_once (env : CacheEnv) (file : Option FileContent)
    (stale_after : Nat)
    (hstale : env.modifiedResult = none ∨
      ∃ m, env.modifiedResult = some m ∧ timestamp.exceeded m env.now stale_after = true) :
    (cached_block env file stale_after).2.2.count Eff.refresh = 1 ∧
    (∀ e, env.refreshResult = Except.error e →
      (cached_block env file stale_after).1 = Except.error e ∧
      (cached_block env file stale_after).2.1 = file) ∧
    (∀ b, env.refreshResult = Except.ok b → env.createOk = true → env.serializeOk = true →
      (cached_block env file stale_after).1 = Except.ok b ∧
      (cached_block env file stale_after).2.1 = some (FileContent.record b)) := by
  rw [cached_block_stale_eq env file stale_after hstale]
  obtain ⟨h1, h2, h3⟩ := update_cache_spec env file
  refine ⟨?_, ?_, ?_⟩
  · simpa [List.count_cons] using h1
  · exact fun e he => ⟨(h2 e he).1, (h2 e he).2⟩
  · exact fun b hb hc hs => ⟨(h3 b hb hc hs).1, (h3 b hb hc hs).2⟩

/-- Witness for `cached_block_stale_refreshes_once` at a stale entry with a
successful refresh: the refreshed record is written and returned. -/
theorem cached_block_stale_refreshes_once_witness :
    (cached_block ⟨some 100, 990000, true, Except.ok ⟨"d2"⟩, true, true⟩
      (some FileContent.garbage) 86400).2.2.count Eff.refresh = 1 ∧
    (cached_block ⟨some 100, 990000, true, Except.ok ⟨"d2"⟩, true, true⟩
      (some FileContent.garbage) 86400).1 = Except.ok ⟨"d2"⟩ ∧
    (cached_block ⟨some 100, 990000, true, Except.ok ⟨"d2"⟩, true, true⟩
      (some FileContent.garbage) 86400).2.1 = some (FileContent.record ⟨"d2"⟩) := by
  have h := cached_block_stale_refreshes_once
    ⟨some 100, 990000, true, Except.ok ⟨"d2"⟩, true, true⟩
    (some FileContent.garbage) 86400 (Or.inr ⟨100, rfl, by decide⟩)
  exact ⟨h.1, (h.2.2 ⟨"d2"⟩ rfl rfl rfl).1, (h.2.2 ⟨"d2"⟩ rfl rfl rfl).2⟩

end System76Firmware

namespace System76Firmware

/-- Claim C8: `unschedule` is idempotent.  Assuming the external
clear-boot-flag operation succeeds in the current state and never fails
when the flag is already clear, and that removing an existing staged
directory succeeds, two consecutive calls both succeed, leave the boot
flag clear and the staged directory absent, and the second call does not
change the world at all. -/
theorem unschedule_idempotent (env : SchedEnv) (w : World)
    (h1 : env.unsetOk w.flag = true)
    (h0 : env.unsetOk false = true)
    (h2 : w.bootDir ≠ none → env.removeOk = true) :
    (unschedule env w).1 = Except.ok () ∧
    (unschedule env (unschedule env w).2.1).1 = Except.ok () ∧
    (unschedule env (unschedule env w).2.1).2.1.flag = false ∧
    (unschedule env (unschedule env w).2.1).2.1.bootDir = none ∧
    (unschedule env (unschedule env w).2.1).2.1 = (unschedule env w).2.1 := by
  obtain ⟨flag, bootDir, tmpDir⟩ := w
  cases bootDir with
  | none =>
    simp [unschedule, remove_dir, h1, h0]
  | some c =>
    have hro : env.removeOk = true := h2 (by simp)
    simp [unschedule, remove_dir, h1, h0, hro]

/-- Witness for `unschedule_idempotent`: starting from a world with the
flag set and a committed artifact present (as after a `schedule`), two
consecutive `unschedule` calls succeed and leave the flag clear and the
directory absent. -/
theorem unschedule_idempotent_witness :
    (unschedule ⟨Except.ok ("darp5", "1"), "", true, fun _ => true, true, true, true, true,
        true, true⟩ ⟨true, some DirContent.complete, none⟩).1 = Except.ok () ∧
    (unschedule ⟨Except.ok ("darp5", "1"), "", true, fun _ => true, true, true, true, true,
        true, true⟩
      (unschedule ⟨Except.ok ("darp5", "1"), "", true, fun _ => true, true, true, true, true,
        true, true⟩ ⟨true, some DirContent.complete, none⟩).2.1).1 = Except.ok () ∧
    (unschedule ⟨Except.ok ("darp5", "1"), "", true, fun _ => true, true, true, true, true,
        true, true⟩
      (unschedule ⟨Except.ok ("darp5", "1"), "", true, fun _ => true, true, true, true, true,
        true, true⟩ ⟨true, some DirContent.complete, none⟩).2.1).2.1.flag = false ∧
    (unschedule ⟨Except.ok ("darp5", "1"), "", true, fun _ => true, true, true, true, true,
        true, true⟩
      (unschedule ⟨Except.ok ("darp5", "1"), "", true, fun _ => true, true, true, true, true,
        true, true⟩ ⟨true, some DirContent.complete, none⟩).2.1).2.1.bootDir = none ∧
    (unschedule ⟨Except.ok ("darp5", "1"), "", true, fun _ => true, true, true, true, true,
        true, true⟩
      (unschedule ⟨Except.ok ("darp5", "1"), "", true, fun _ => true, true, true, true, true,
        true, true⟩ ⟨true, some DirContent.complete, none⟩).2.1).2.1 =
      (unschedule ⟨Except.ok ("darp5", "1"), "", true, fun _ => true, true, true, true, true,
        true, true⟩ ⟨true, some DirContent.complete, none⟩).2.1 :=
  unschedule_idempotent
    ⟨Except.ok ("darp5", "1"), "", true, fun _ => true, true, true, true, true, true, true⟩
    ⟨true, some DirContent.complete, none⟩ rfl rfl (fun _ => rfl)

/-- Claim C9 (amended): when firmware-identity resolution succeeds and
the `/sys/firmware/efi` marker path does not exist, `schedule` returns
exactly the error `"must be run using UEFI boot"`, with the world
unchanged and an empty effect trace — so the boot flag is not touched,
no staged directory is removed, and nothing is downloaded or
extracted. -/
theorem schedule_uefi_precheck (env : SchedEnv) (w : World) (m v : String)
    (hb : env.biosResult = Except.ok (m, v))
    (he : env.efiExists = false) :
    schedule env w = (Except.error "must be run using UEFI boot", w, []) := by
  simp [schedule, firmware_id, hb, he]

/-- Witness for `schedule_uefi_precheck` at a concrete environment with
a successful bios read and no UEFI marker path. -/
theorem schedule_uefi_precheck_witness :
    schedule ⟨Except.ok ("darp5", "1"), "", false, fun _ => true, true, true, true, true,
        true, true⟩ ⟨false, none, none⟩ =
      (Except.error "must be run using UEFI boot", (⟨false, none, none⟩ : World), []) :=
  schedule_uefi_precheck
    ⟨Except.ok ("darp5", "1"), "", false, fun _ => true, true, true, true, true, true, true⟩
    ⟨false, none, none⟩ "darp5" "1" rfl rfl

/-- Counterexample to claim C9 as stated: `firmware_id()` runs before
the UEFI marker check (src/lib.rs line 219 vs line 221), so when
board-model retrieval fails and the marker path is absent, `schedule`
returns the bios error, not `"must be run using UEFI boot"`. -/
theorem schedule_uefi_precheck_counterexample :
    (⟨Except.error "failed to read DMI", "", false, fun _ => true, true, true, true, true,
        true, true⟩ : SchedEnv).efiExists = false ∧
    (schedule ⟨Except.error "failed to read DMI", "", false, fun _ => true, true, true, true,
        true, true, true⟩ ⟨false, none, none⟩).1 = Except.error "failed to read DMI" ∧
    "failed to read DMI" ≠ "must be run using UEFI boot" :=
  ⟨rfl, rfl, by decide⟩

end System76Firmware

namespace System76Firmware

/-- Claim C1: in `schedule`, the boot flag is set only after the rename
of the staging directory has succeeded.  (i) Whenever any step before or
including the rename fails, `schedule` returns an error and never
invokes the flag-setting operation.  (ii) Whenever the flag-setting
operation appears in the trace, the rename succeeded, a complete
artifact is present at the boot-visible path, and the trace decomposes
with the rename strictly before the flag-setting.  (iii) On a rename
failure after successful extraction, the temporary directory is removed
as best-effort cleanup (its own error ignored) and the rename error is
returned, the flag never set. -/
theorem schedule_flag_only_after_rename (env : SchedEnv) (w : World) :
    (preRenameFail env w →
      (∃ e, (schedule env w).1 = Except.error e) ∧
      Eff.setFlag ∉ (schedule env w).2.2) ∧
    (Eff.setFlag ∈ (schedule env w).2.2 →
      env.renameOk = true ∧
      (schedule env w).2.1.bootDir = some DirContent.complete ∧
      ∃ l1 l2, (schedule env w).2.2 = l1 ++ Eff.renameDir :: l2 ∧ Eff.setFlag ∈ l2) ∧
    (∀ m v, env.biosResult = Except.ok (m, v) → env.efiExists = true →
      env.unsetOk w.flag = true → (w.bootDir = none ∨ env.removeOk = true) →
      env.tempdirOk = true → env.extractUpdaterOk = true → env.extractFirmwareOk = true →
      env.renameOk = false →
      (schedule env w).1 = Except.error "failed to move temporary directory to boot path" ∧
      Eff.removeTempDir ∈ (schedule env w).2.2 ∧
      Eff.setFlag ∉ (schedule env w).2.2) := by
  rcases hb : env.biosResult with e | ⟨m, v⟩
  · simp [schedule, firmware_id, preRenameFail, hb]
  · cases he : env.efiExists with
    | false => simp [schedule, firmware_id, preRenameFail, hb, he]
    | true =>
      cases hu : env.unsetOk w.flag with
      | false => simp [schedule, firmware_id, preRenameFail, hb, he, hu]
      | true =>
        cases hbd : w.bootDir with
        | none =>
          cases ht : env.tempdirOk with
          | false =>
            simp [schedule, firmware_id, preRenameFail, remove_dir, hb, he, hu, hbd, ht]
          | true =>
            cases h1 : env.extractUpdaterOk with
            | false =>
              simp [schedule, firmware_id, preRenameFail, remove_dir, hb, he, hu, hbd, ht, h1]
            | true =>
              cases h2 : env.extractFirmwareOk with
              | false =>
                simp [schedule, firmware_id, preRenameFail, remove_dir, hb, he, hu, hbd, ht,
                  h1, h2]
              | true =>
                cases hr : env.renameOk with
                | false =>
                  cases hro : env.removeOk <;>
                    simp [schedule, firmware_id, preRenameFail, remove_dir, hb, he, hu, hbd,
                      ht, h1, h2, hr, hro]
                | true =>
                  cases hset : env.setOk with
                  | false =>
                    simp [schedule, firmware_id, preRenameFail, remove_dir, hb, he, hu, hbd,
                      ht, h1, h2, hr, hset]
                    exact ⟨[Eff.unsetFlag, Eff.createTempDir,
                      Eff.extractPayload "system76-firmware-update.tar.xz",
                      Eff.extractPayload (m ++ "_" ++ util.sha256 (strBytes env.ecProject)
                        ++ ".tar.xz")], [Eff.setFlag], by simp, by simp⟩
                  | true =>
                    simp [schedule, firmware_id, preRenameFail, remove_dir, hb, he, hu, hbd,
                      ht, h1, h2, hr, hset]
                    exact ⟨[Eff.unsetFlag, Eff.createTempDir,
                      Eff.extractPayload "system76-firmware-update.tar.xz",
                      Eff.extractPayload (m ++ "_" ++ util.sha256 (strBytes env.ecProject)
                        ++ ".tar.xz")], [Eff.setFlag], by simp, by simp⟩
        | some c =>
          cases hro : env.removeOk with
          | false =>
            simp [schedule, firmware_id, preRenameFail, remove_dir, hb, he, hu, hbd, hro]
          | true =>
            cases ht : env.tempdirOk with
            | false =>
              simp [schedule, firmware_id, preRenameFail, remove_dir, hb, he, hu, hbd, hro,
                ht]
            | true =>
              cases h1 : env.extractUpdaterOk with
              | false =>
                simp [schedule, firmware_id, preRenameFail, remove_dir, hb, he, hu, hbd,
                  hro, ht, h1]
              | true =>
                cases h2 : env.extractFirmwareOk with
                | false =>
                  simp [schedule, firmware_id, preRenameFail, remove_dir, hb, he, hu, hbd,
                    hro, ht, h1, h2]
                | true =>
                  cases hr : env.renameOk with
                  | false =>
                    simp [schedule, firmware_id, preRenameFail, remove_dir, hb, he, hu, hbd,
                      hro, ht, h1, h2, hr]
                  | true =>
                    cases hset : env.setOk with
                    | false =>
                      simp [schedule, firmware_id, preRenameFail, remove_dir, hb, he, hu,
                        hbd, hro, ht, h1, h2, hr, hset]
                      exact ⟨[Eff.unsetFlag, Eff.removeBootDir, Eff.createTempDir,
                        Eff.extractPayload "system76-firmware-update.tar.xz",
                        Eff.extractPayload (m ++ "_" ++ util.sha256 (strBytes env.ecProject)
                          ++ ".tar.xz")], [Eff.setFlag], by simp, by simp⟩
                    | true =>
                      simp [schedule, firmware_id, preRenameFail, remove_dir, hb, he, hu,
                        hbd, hro, ht, h1, h2, hr, hset]
                      exact ⟨[Eff.unsetFlag, Eff.removeBootDir, Eff.createTempDir,
                        Eff.extractPayload "system76-firmware-update.tar.xz",
                        Eff.extractPayload (m ++ "_" ++ util.sha256 (strBytes env.ecProject)
                          ++ ".tar.xz")], [Eff.setFlag], by simp, by simp⟩

end System76Firmware

namespace System76Firmware

/-- Witness for `schedule_flag_only_after_rename`: with temporary
directory creation failing (a pre-rename failure), `schedule` errors and
the flag-setting operation is absent from the trace. -/
theorem schedule_flag_only_after_rename_witness :
    (∃ e, (schedule ⟨Except.ok ("darp5", "1"), "", true, fun _ => true, true, false, true,
      true, true, true⟩ ⟨false, none, none⟩).1 = Except.error e) ∧
    Eff.setFlag ∉ (schedule ⟨Except.ok ("darp5", "1"), "", true, fun _ => true, true, false,
      true, true, true, true⟩ ⟨false, none, none⟩).2.2 :=
  (schedule_flag_only_after_rename
    ⟨Except.ok ("darp5", "1"), "", true, fun _ => true, true, false, true, true, true, true⟩
    ⟨false, none, none⟩).1
    (Or.inr (Or.inr (Or.inr (Or.inr (Or.inl rfl)))))

/-- The trace of `cached_block` never contains the allow-list check
effect. -/
theorem cached_block_whitelist_free (env : CacheEnv) (file : Option FileContent) (sa : Nat) :
    Eff.whitelistCheck ∉ (cached_block env file sa).2.2 := by
  cases hm : env.modifiedResult with
  | none =>
    rcases hr : env.refreshResult with e | b <;> cases hc : env.createOk <;>
      cases hs : env.serializeOk <;>
      simp [cached_block, update_cache, hm, hr, hc, hs]
  | some m =>
    cases hex : timestamp.exceeded m env.now sa with
    | true =>
      rcases hr : env.refreshResult with e | b <;> cases hc : env.createOk <;>
        cases hs : env.serializeOk <;>
        simp [cached_block, read_cache, update_cache, hm, hex, hr, hc, hs]
    | false =>
      cases ho : env.openOk with
      | false => simp [cached_block, read_cache, hm, hex, ho]
      | true =>
        cases file with
        | none => simp [cached_block, read_cache, hm, hex, ho]
        | some c => cases c <;> simp [cached_block, read_cache, hm, hex, ho]

/-- The trace of `schedule` never contains the allow-list check
effect. -/
theorem schedule_whitelist_free (env : SchedEnv) (w : World) :
    Eff.whitelistCheck ∉ (schedule env w).2.2 := by
  rcases hb : env.biosResult with e | ⟨m, v⟩
  · simp [schedule, firmware_id, hb]
  · cases he : env.efiExists with
    | false => simp [schedule, firmware_id, hb, he]
    | true =>
      cases hu : env.unsetOk w.flag with
      | false => simp [schedule, firmware_id, hb, he, hu]
      | true =>
        cases hbd : w.bootDir with
        | none =>
          cases ht : env.tempdirOk with
          | false => simp [schedule, firmware_id, remove_dir, hb, he, hu, hbd, ht]
          | true =>
            cases h1 : env.extractUpdaterOk with
            | false => simp [schedule, firmware_id, remove_dir, hb, he, hu, hbd, ht, h1]
            | true =>
              cases h2 : env.extractFirmwareOk with
              | false => simp [schedule, firmware_id, remove_dir, hb, he, hu, hbd, ht, h1, h2]
              | true =>
                cases hr : env.renameOk with
                | false =>
                  cases hro : env.removeOk <;>
                    simp [schedule, firmware_id, remove_dir, hb, he, hu, hbd, ht, h1, h2,
                      hr, hro]
                | true =>
                  cases hset : env.setOk <;>
                    simp [schedule, firmware_id, remove_dir, hb, he, hu, hbd, ht, h1, h2,
                      hr, hset]
        | some c =>
          cases hro : env.removeOk with
          | false => simp [schedule, firmware_id, remove_dir, hb, he, hu, hbd, hro]
          | true =>
            cases ht : env.tempdirOk with
            | false => simp [schedule, firmware_id, remove_dir, hb, he, hu, hbd, hro, ht]
            | true =>
              cases h1 : env.extractUpdaterOk with
              | false =>
                simp [schedule, firmware_id, remove_dir, hb, he, hu, hbd, hro, ht, h1]
              | true =>
                cases h2 : env.extractFirmwareOk with
                | false =>
                  simp [schedule, firmware_id, remove_dir, hb, he, hu, hbd, hro, ht, h1, h2]
                | true =>
                  cases hr : env.renameOk with
                  | false =>
                    simp [schedule, firmware_id, remove_dir, hb, he, hu, hbd, hro, ht, h1,
                      h2, hr]
                  | true =>
                    cases hset : env.setOk <;>
                      simp [schedule, firmware_id, remove_dir, hb, he, hu, hbd, hro, ht, h1,
                        h2, hr, hset]

/-- Claim C4 (amended): neither `download` nor `schedule` ever invokes
the model allow-list check — `model_is_whitelisted` is exported for
callers, and no execution of either operation performs the check at any
point. -/
theorem whitelist_check_not_invoked (envD : DlEnv) (envS : SchedEnv) (w : World) :
    Eff.whitelistCheck ∉ (download envD).2 ∧
    Eff.whitelistCheck ∉ (schedule envS w).2.2 := by
  refine ⟨?_, schedule_whitelist_free envS w⟩
  rcases hb : envD.biosResult with e | ⟨m, v⟩
  · simp [download, firmware_id, hb]
  · cases hd : envD.downloaderNewOk with
    | false => simp [download, firmware_id, hb, hd]
    | true =>
      rcases hcb : cached_block envD.cacheEnv envD.cacheFile SECONDS_IN_DAY with ⟨res, f2, trc⟩
      have htrc : Eff.whitelistCheck ∉ trc := by
        have h := cached_block_whitelist_free envD.cacheEnv envD.cacheFile SECONDS_IN_DAY
        rw [hcb] at h
        exact h
      cases res with
      | error e => simp [download, firmware_id, hb, hd, hcb, htrc]
      | ok tail =>
        rcases ho1 : envD.objectResult tail.digest with e | mj
        · cases hcn : envD.cacheNewOk <;>
            simp [download, firmware_id, hb, hd, hcb, hcn, ho1, htrc]
        · cases hcn : envD.cacheNewOk with
          | false => simp [download, firmware_id, hb, hd, hcb, hcn, htrc]
          | true =>
            rcases hp : envD.parseManifest mj with e | files
            · simp [download, firmware_id, hb, hd, hcb, hcn, ho1, hp, htrc]
            · rcases hl1 : files.lookup "system76-firmware-update.tar.xz" with _ | d1
              · simp [download, firmware_id, hb, hd, hcb, hcn, ho1, hp, hl1, htrc]
              · rcases ho2 : envD.objectResult d1 with e | b1
                · simp [download, firmware_id, hb, hd, hcb, hcn, ho1, hp, hl1, ho2, htrc]
                · rcases hl2 : files.lookup
                      (m ++ "_" ++ util.sha256 (strBytes envD.ecProject) ++ ".tar.xz")
                    with _ | d2
                  · simp [download, firmware_id, hb, hd, hcb, hcn, ho1, hp, hl1, ho2, hl2,
                      htrc]
                  · rcases ho3 : envD.objectResult d2 with e | b2
                    · simp [download, firmware_id, hb, hd, hcb, hcn, ho1, hp, hl1, ho2, hl2,
                        ho3, htrc]
                    · rcases hex : envD.extractChangelogResult with e | cl <;>
                        simp [download, firmware_id, hb, hd, hcb, hcn, ho1, hp, hl1, ho2,
                          hl2, ho3, hex, htrc]

/-- Counterexample to claim C4 as stated: a complete, successful
`download` execution — performing cache and network activity, returning
the tail digest and changelog — whose trace contains no allow-list
check: `download` (src/lib.rs lines 115-154) never calls
`model_is_whitelisted`. -/
theorem download_whitelist_counterexample :
    (download happyDlEnv).1 = Except.ok ("taildigest", "changelog-json") ∧
    Eff.fetchObject "taildigest" ∈ (download happyDlEnv).2 ∧
    Eff.whitelistCheck ∉ (download happyDlEnv).2 :=
  ⟨rfl, by decide, by decide⟩

end System76Firmware
